import Mathlib

/-!
Shallow embedding of the dcos/telegraf target-discovery and
metadata-enrichment pipeline (plugins/inputs/prometheus and
plugins/processors/dcos_metadata), with theorems settling the spec claims.

Go maps are modelled as association lists in which assignment replaces the
entry for an existing key and otherwise appends; Go's zero-value lookup
(`m[k]` yielding `""` when `k` is absent) is modelled by `getTag`.
-/

namespace DcosTelegraf

/-- Association-list lookup, modelling Go `v, ok := m[k]`. -/
def lookupA {α : Type} (m : List (String × α)) (k : String) : Option α :=
  (m.find? (fun p => p.1 == k)).map (fun p => p.2)

/-- Association-list assignment, modelling Go `m[k] = v`. -/
def setA {α : Type} (m : List (String × α)) (k : String) (v : α) :
    List (String × α) :=
  if (m.find? (fun p => p.1 == k)).isSome then
    m.map (fun p => if p.1 == k then (k, v) else p)
  else m ++ [(k, v)]

/-- Go string-map read with zero value: `m[k]` is `""` when `k` is absent. -/
def getTag (m : List (String × String)) (k : String) : String :=
  (lookupA m k).getD ""

theorem find?_replace_self {α : Type} (k : String) (v : α) :
    ∀ m : List (String × α), (m.find? (fun p => p.1 == k)).isSome →
      List.find? (fun p => p.1 == k)
        (m.map (fun p => if p.1 == k then (k, v) else p)) = some (k, v)
  | [], h => by simp at h
  | p :: rest, h => by
    by_cases hp : (p.1 == k) = true
    · simp only [List.map_cons, if_pos hp]
      exact List.find?_cons_of_pos _ (by simp)
    · rw [List.find?_cons_of_neg (p := fun q : String × α => q.1 == k) _ hp] at h
      simp only [List.map_cons, if_neg hp]
      rw [List.find?_cons_of_neg (p := fun q : String × α => q.1 == k) _ hp]
      exact find?_replace_self k v rest h

theorem find?_replace_ne {α : Type} (k k' : String) (v : α) (hne : k' ≠ k) :
    ∀ m : List (String × α),
      List.find? (fun p => p.1 == k')
        (m.map (fun p => if p.1 == k then (k, v) else p)) =
      List.find? (fun p => p.1 == k') m
  | [] => by simp
  | p :: rest => by
    have hkk' : ¬((k : String) == k') = true := by
      simpa using fun hh => hne hh.symm
    by_cases hp : (p.1 == k) = true
    · have hpk : p.1 = k := by simpa using hp
      have hpk' : ¬(p.1 == k') = true := by rw [hpk]; exact hkk'
      simp only [List.map_cons, if_pos hp]
      rw [List.find?_cons_of_neg (p := fun q : String × α => q.1 == k') _ hkk',
        List.find?_cons_of_neg (p := fun q : String × α => q.1 == k') _ hpk']
      exact find?_replace_ne k k' v hne rest
    · simp only [List.map_cons, if_neg hp]
      by_cases hq : (p.1 == k') = true
      · rw [List.find?_cons_of_pos (p := fun q : String × α => q.1 == k') _ hq,
          List.find?_cons_of_pos (p := fun q : String × α => q.1 == k') _ hq]
      · rw [List.find?_cons_of_neg (p := fun q : String × α => q.1 == k') _ hq,
          List.find?_cons_of_neg (p := fun q : String × α => q.1 == k') _ hq]
        exact find?_replace_ne k k' v hne rest

theorem lookupA_setA_self {α : Type} (m : List (String × α)) (k : String)
    (v : α) : lookupA (setA m k v) k = some v := by
  unfold lookupA setA
  by_cases h : (m.find? (fun p => p.1 == k)).isSome
  · rw [if_pos h, find?_replace_self k v m h]
    rfl
  · rw [if_neg h]
    rw [Option.not_isSome_iff_eq_none] at h
    rw [List.find?_append, h]
    simp [List.find?_cons]

theorem lookupA_setA_ne {α : Type} (m : List (String × α)) (k k' : String)
    (v : α) (hne : k' ≠ k) : lookupA (setA m k v) k' = lookupA m k' := by
  unfold lookupA setA
  have hkk' : ¬((k : String) == k') = true := by
    simpa using fun hh => hne hh.symm
  by_cases h : (m.find? (fun p => p.1 == k)).isSome
  · rw [if_pos h, find?_replace_ne k k' v hne m]
  · rw [if_neg h, List.find?_append]
    simp [List.find?_cons, hkk']

theorem lookupA_setA_isSome {α : Type} (m : List (String × α))
    (k k' : String) (v : α) (h : (lookupA m k').isSome) :
    (lookupA (setA m k v) k').isSome := by
  by_cases he : k' = k
  · subst he; simp [lookupA_setA_self]
  · rw [lookupA_setA_ne m k k' v he]; exact h

/-! ### Mesos data model (mesos-go structures used by the plugins)

Pointer-typed fields (`*T` in Go) are `Option`; `GetX()` accessors that
return the zero value on `nil` are folded into the definitions below. -/

structure IPAddress where
  ipAddress : String
  deriving DecidableEq

structure PortMapping where
  hostPort : Nat
  containerPort : Nat
  deriving DecidableEq

structure NetworkInfo where
  ipAddresses : List IPAddress
  portMappings : List PortMapping
  deriving DecidableEq

/-- mesos.ContainerID: a container id with an optional parent id. -/
inductive ContainerID where
  | mk (value : String) (parent : Option ContainerID)

def ContainerID.value : ContainerID → String
  | .mk v _ => v

def ContainerID.parent : ContainerID → Option ContainerID
  | .mk _ p => p

def ContainerID.deq : (a b : ContainerID) → Decidable (a = b)
  | .mk v none, .mk w none =>
    if h : v = w then .isTrue (by rw [h]) else .isFalse (by simp [h])
  | .mk _ none, .mk _ (some _) => .isFalse (by simp)
  | .mk _ (some _), .mk _ none => .isFalse (by simp)
  | .mk v (some p), .mk w (some q) =>
    match ContainerID.deq p q with
    | .isTrue hpq =>
      if h : v = w then .isTrue (by rw [h, hpq])
      else .isFalse (by simp [h])
    | .isFalse hpq => .isFalse (by simp [hpq])

instance : DecidableEq ContainerID := ContainerID.deq

structure ContainerStatus where
  containerID : Option ContainerID
  networkInfos : List NetworkInfo
  deriving DecidableEq

structure TaskStatus where
  containerStatus : Option ContainerStatus
  deriving DecidableEq

structure Label where
  key : String
  value : String
  deriving DecidableEq

structure Port where
  number : Nat
  name : Option String
  labels : Option (List Label)
  deriving DecidableEq

/-- Go's `var port mesos.Port` zero value. -/
def zeroPort : Port := { number := 0, name := none, labels := none }

structure ValueRange where
  rbegin : Nat
  rend : Nat
  deriving DecidableEq

structure Resource where
  name : String
  ranges : List ValueRange
  scalar : Option Float

structure DockerInfo where
  portMappings : List PortMapping
  deriving DecidableEq

structure TaskContainerInfo where
  networkInfos : List NetworkInfo
  docker : Option DockerInfo
  deriving DecidableEq

structure Discovery where
  ports : Option (List Port)
  deriving DecidableEq

structure Task where
  name : String
  taskID : String
  frameworkID : String
  executorID : Option String
  labels : Option (List Label)
  discovery : Option Discovery
  resources : List Resource
  statuses : List TaskStatus
  container : Option TaskContainerInfo

structure FrameworkInfo where
  id : String
  name : String
  deriving DecidableEq

structure FrameworkEntry where
  frameworkInfo : FrameworkInfo
  deriving DecidableEq

structure Response_GetFrameworks where
  frameworks : List FrameworkEntry
  deriving DecidableEq

structure ExecutorInfo where
  executorID : String
  name : String
  deriving DecidableEq

structure ExecutorEntry where
  executorInfo : ExecutorInfo
  deriving DecidableEq

structure Response_GetExecutors where
  executors : List ExecutorEntry
  deriving DecidableEq

structure Response_GetTasks where
  launchedTasks : List Task

structure Response_GetState where
  getTasks : Option Response_GetTasks
  getFrameworks : Option Response_GetFrameworks
  getExecutors : Option Response_GetExecutors

/-- telegraf.Metric kinds (plus Untyped for the default case). -/
inductive MetricType where
  | counter
  | gauge
  | summary
  | histogram
  | untyped
  deriving DecidableEq

/-- telegraf.Metric restricted to the parts the claims touch: fields and
timestamp are never inspected by the embedded code paths. -/
structure Metric where
  name : String
  mtype : MetricType
  tags : List (String × String)
  deriving DecidableEq

/-! ### plugins/processors/dcos_metadata/dcos_metadata.go -/

/-- The constant `dcosMetricsPrefix = "DCOS_METRICS_"` (renamed here to avoid
a reserved suffix). -/
def dcosMetricsPrefixVal : String := "DCOS_METRICS_"

/-- The constant `dcosMetricsLabelsWhitelist = [...]string{"DCOS_SERVICE_NAME"}`. -/
def dcosMetricsLabelsWhitelist : List String := ["DCOS_SERVICE_NAME"]

/-- containerInfo: metadata mapping a container ID to task, executor and
framework information. -/
structure containerInfo where
  containerID : String
  taskName : String
  executorName : String
  frameworkName : String
  taskLabels : List (String × String)
  deriving DecidableEq

/-- strings.HasPrefix, on character lists (the byte-level String.startsWith
does not evaluate in the kernel). -/
def hasPrefixStr (s pre : String) : Bool := pre.data.isPrefixOf s.data

/-- strings.TrimPrefix, on character lists. -/
def trimPrefixStr (s pre : String) : String :=
  if pre.data.isPrefixOf s.data then String.mk (s.data.drop pre.data.length)
  else s

/-- mapTaskLabels: the label filter applied when caching task labels.
Go source: `selected` is set only inside the `strings.HasPrefix` branch;
the whitelist is compared against the prefix-stripped key. -/
def mapTaskLabels (labels : Option (List Label)) : List (String × String) :=
  match labels with
  | none => []
  | some ls =>
    ls.foldl
      (fun results l =>
        let k := l.key
        if hasPrefixStr k dcosMetricsPrefixVal then
          let k := trimPrefixStr k dcosMetricsPrefixVal
          let selected :=
            decide (k.length > 0) ||
              dcosMetricsLabelsWhitelist.any (fun w => k == w)
          if selected then setA results k l.value else results
        else results)
      []

/-- mapFrameworkNames: map of framework ids to names. -/
def mapFrameworkNames (gf : Option Response_GetFrameworks) :
    List (String × String) :=
  match gf with
  | none => []
  | some g =>
    g.frameworks.foldl
      (fun results f => setA results f.frameworkInfo.id f.frameworkInfo.name)
      []

/-- mapExecutorNames: map of executor ids to names. -/
def mapExecutorNames (ge : Option Response_GetExecutors) :
    List (String × String) :=
  match ge with
  | none => []
  | some g =>
    g.executors.foldl
      (fun results e =>
        setA results e.executorInfo.executorID e.executorInfo.name)
      []

/-- getContainerID (dcos_metadata variant): first status carrying a container
status with a container id; returns that id's own value. -/
def getContainerID : List TaskStatus → String
  | [] => ""
  | s :: rest =>
    match s.containerStatus with
    | none => getContainerID rest
    | some cs =>
      match cs.containerID with
      | none => getContainerID rest
      | some cid => cid.value

/-- cache: build the container map from a GetState response. The lock and the
atomic swap of `dm.containers` are modelled by returning the new map. -/
def cache (gs : Response_GetState) : List (String × containerInfo) :=
  match gs.getTasks with
  | none => []
  | some gt =>
    let frameworkNames := mapFrameworkNames gs.getFrameworks
    let executorNames := mapExecutorNames gs.getExecutors
    gt.launchedTasks.foldl
      (fun containers t =>
        let cid := getContainerID t.statuses
        let eName :=
          match t.executorID with
          | some eid => (lookupA executorNames eid).getD ""
          | none => ""
        if cid != "" then
          setA containers cid
            { containerID := cid
              taskName := t.name
              executorName := eName
              frameworkName := (lookupA frameworkNames t.frameworkID).getD ""
              taskLabels := mapTaskLabels t.labels }
        else containers)
      []

/-- The per-metric body of DCOSMetadata.Apply: tag enrichment for one metric.
Returns the updated metric and whether the container id was unknown. -/
def applyMetric (containers : List (String × containerInfo)) (m : Metric) :
    Metric × Bool :=
  match lookupA m.tags "container_id" with
  | none => (m, false)
  | some cid =>
    match lookupA containers cid with
    | some c =>
      let tags := c.taskLabels.foldl (fun ts kv => setA ts kv.1 kv.2) m.tags
      let tags := setA tags "service_name" c.frameworkName
      let tags :=
        if c.executorName != "" then setA tags "executor_name" c.executorName
        else tags
      let tags := setA tags "task_name" c.taskName
      ({ m with tags := tags }, false)
    | none => (m, true)

/-- DCOSMetadata.Apply over a batch of metrics: returns the updated metrics
and the set of unknown container ids handed to the async refresh
(the `unknown map[string]bool` of the source, as a duplicate-free list). -/
def Apply (containers : List (String × containerInfo)) (ms : List Metric) :
    List Metric × List String :=
  ms.foldl
    (fun acc m =>
      let r := applyMetric containers m
      let unknown :=
        if r.2 then
          let cid := (lookupA m.tags "container_id").getD ""
          if acc.2.contains cid then acc.2 else acc.2 ++ [cid]
        else acc.2
      (acc.1 ++ [r.1], unknown))
    ([], [])

/-! ### plugins/inputs/prometheus/prometheus.go -/

/-- simplifyLabels: converts a Labels object to a hashmap. -/
def simplifyLabels (ll : Option (List Label)) : List (String × String) :=
  match ll with
  | none => []
  | some ls => ls.foldl (fun results l => setA results l.key l.value) []

/-- getPortsFromTask: a task's discovery ports (empty when absent). -/
def getPortsFromTask (t : Task) : List Port :=
  match t.discovery with
  | none => []
  | some d =>
    match d.ports with
    | none => []
    | some pp => pp

/-- strconv.Atoi: optional sign followed by at least one digit. Go also
errors when the value overflows a 64-bit int; every caller here treats an
overflowed index the same as an out-of-range one, so the bound is omitted. -/
def atoiDigits : List Char → Option Nat
  | [] => none
  | cs =>
    cs.foldl
      (fun acc c =>
        acc.bind (fun n => if c.isDigit then some (n * 10 + (c.toNat - 48)) else none))
      (some 0)

def atoi (s : String) : Option Int :=
  match s.data with
  | [] => none
  | c :: rest =>
    if c = '+' then (atoiDigits rest).map Int.ofNat
    else if c = '-' then (atoiDigits rest).map (fun n => -(Int.ofNat n))
    else (atoiDigits (c :: rest)).map Int.ofNat

/-- getTaskIP: the IP address assigned to a task, from its last status. -/
def getTaskIP (statuses : List TaskStatus) : Except String String :=
  match statuses.getLast? with
  | none => .error "task had no associated statuses"
  | some status =>
    match status.containerStatus with
    | some cs =>
      match cs.networkInfos with
      | info :: _ =>
        match info.ipAddresses with
        | ip :: _ => .ok ip.ipAddress
        | [] => .error "task had no associated IP address"
      | [] => .error "task had no associated IP address"
    | none => .error "task had no associated IP address"

/-- isHostPort: network-scope label, then task port resources (ranges and
scalar), then pod port-mappings in statuses, then container/Docker
port-mappings. -/
def isHostPort (p : Port) (t : Task) : Bool :=
  let portLabels := simplifyLabels p.labels
  match lookupA portLabels "network-scope" with
  | some s => s == "host"
  | none =>
    (t.resources.any (fun r =>
      r.name == "ports" &&
        (r.ranges.any (fun pr =>
            decide (pr.rbegin ≤ p.number) && decide (pr.rend ≥ p.number)) ||
          ((r.scalar.getD 0) == Float.ofNat p.number)))) ||
    (t.statuses.any (fun s =>
      ((s.containerStatus.map (fun cs => cs.networkInfos)).getD []).any
        (fun ni => ni.portMappings.any (fun pm => pm.hostPort == p.number)))) ||
    (match t.container with
     | some c =>
       (c.networkInfos.any (fun ni =>
          ni.portMappings.any (fun pm => pm.hostPort == p.number))) ||
       (match c.docker with
        | some d => d.portMappings.any (fun pm => pm.hostPort == p.number)
        | none => false)
     | none => false)

/-- getHostnameForPort: node hostname for host ports, task IP otherwise. -/
def getHostnameForPort (p : Port) (t : Task) (nodeHostname : String) :
    Except String String :=
  if !(isHostPort p t) then
    match getTaskIP t.statuses with
    | .error e =>
      .error ("could not retrieve IP address for " ++ t.taskID ++ ": " ++ e)
    | .ok taskIP => .ok taskIP
  else .ok nodeHostname

/-- The route snippet shared by both discovery paths: DCOS_METRICS_ENDPOINT
label when non-empty, "/metrics" otherwise. -/
def metricsRoute (labels : List (String × String)) : String :=
  let ep := getTag labels "DCOS_METRICS_ENDPOINT"
  if ep != "" then ep else "/metrics"

/-- getEndpointsFromTaskPorts: endpoints from appropriately labelled ports. -/
def getEndpointsFromTaskPorts (t : Task) (nodeHostname : String) :
    List String :=
  (getPortsFromTask t).foldl
    (fun endpoints p =>
      let portLabels := simplifyLabels p.labels
      if getTag portLabels "DCOS_METRICS_FORMAT" == "prometheus" then
        match getHostnameForPort p t nodeHostname with
        | .error _ => endpoints
        | .ok hostname =>
          endpoints ++
            ["http://" ++ hostname ++ ":" ++ toString p.number ++
              metricsRoute portLabels]
      else endpoints)
    []

/-- getEndpointFromTaskLabels: cross-references the task's port-index (or
port-name) label with its ports to yield at most one endpoint. Go's
`len(s) == 0` tests on label values are rendered as `s == ""`. In the
name branch the source dereferences `*taskPort.Name` (panicking on a nil
name); a nil name is rendered as the empty string, which cannot match the
non-empty `portName` in that branch. -/
def getEndpointFromTaskLabels (t : Task) (nodeHostname : String) :
    Option String :=
  let taskPorts := getPortsFromTask t
  let taskLabels := simplifyLabels t.labels
  if getTag taskLabels "DCOS_METRICS_FORMAT" != "prometheus" then none
  else
    let portIndex := getTag taskLabels "DCOS_METRICS_PORT_INDEX"
    let portName := getTag taskLabels "DCOS_METRICS_PORT_NAME"
    if portIndex == "" && portName == "" then none
    else
      let selected : Option Port :=
        if portIndex != "" then
          match atoi portIndex with
          | none => none
          | some index =>
            if index < 0 ∨ index ≥ (taskPorts.length : Int) then none
            else taskPorts.get? index.toNat
        else
          let port := taskPorts.foldl
            (fun acc tp => if tp.name.getD "" == portName then tp else acc)
            zeroPort
          if port.number == 0 then none else some port
      match selected with
      | none => none
      | some port =>
        match getHostnameForPort port t nodeHostname with
        | .error _ => none
        | .ok hostname =>
          some ("http://" ++ hostname ++ ":" ++ toString port.number ++
            metricsRoute taskLabels)

/-- getContainerIDs (prometheus variant): the container id and the parent
container id from the first status carrying a container status with a
container id. -/
def getContainerIDs : List TaskStatus → String × String
  | [] => ("", "")
  | s :: rest =>
    match s.containerStatus with
    | none => getContainerIDs rest
    | some cs =>
      match cs.containerID with
      | none => getContainerIDs rest
      | some cid => (cid.value, ((cid.parent.map ContainerID.value).getD ""))

/-- URLAndAddress. net/url URLs are represented by their string rendering:
every endpoint built by discovery has the shape http://host:port/route,
on which url.Parse succeeds and round-trips. -/
structure URLAndAddress where
  url : String
  originalURL : String
  address : String
  tags : List (String × String)
  deriving DecidableEq

/-- makeURLAndAddress: wraps an endpoint, tagging it with the first return
value of getContainerIDs (the direct container id; the parent id is bound
to the blank identifier and discarded). -/
def makeURLAndAddress (task : Task) (endpoint : String) : URLAndAddress :=
  { url := endpoint
    originalURL := endpoint
    address := ""
    tags := [("container_id", (getContainerIDs task.statuses).1)] }

/-- getMesosTaskPrometheusURLs: all task-discovered scrape targets. -/
def getMesosTaskPrometheusURLs (tasks : Response_GetTasks)
    (hostname : String) : List URLAndAddress :=
  tasks.launchedTasks.foldl
    (fun results t =>
      let results :=
        (getEndpointsFromTaskPorts t hostname).foldl
          (fun rs endpoint => rs ++ [makeURLAndAddress t endpoint]) results
      match getEndpointFromTaskLabels t hostname with
      | some endpoint => results ++ [makeURLAndAddress t endpoint]
      | none => results)
    []

/-! ### Claim C1 and C3 scenarios -/

/-- The one-task GetState response of the C1 scenario: container id abc123,
executor name E, framework name F, task label DCOS_METRICS_FOO=bar. -/
def c1State (tn E F : String) : Response_GetState :=
  { getTasks := some
      { launchedTasks :=
          [{ name := tn
             taskID := "task-abc"
             frameworkID := "fid"
             executorID := some "eid"
             labels := some [{ key := "DCOS_METRICS_FOO", value := "bar" }]
             discovery := none
             resources := []
             statuses :=
               [{ containerStatus := some
                    { containerID := some (.mk "abc123" none)
                      networkInfos := [] } }]
             container := none }] }
    getFrameworks := some
      { frameworks := [{ frameworkInfo := { id := "fid", name := F } }] }
    getExecutors := some
      { executors :=
          [{ executorInfo := { executorID := "eid", name := E } }] } }

/-- A metric carrying only the container_id tag of the C1 scenario. -/
def c1Metric : Metric :=
  { name := "test", mtype := .untyped, tags := [("container_id", "abc123")] }

/-- The metric after enrichment against the C1 scenario cache. -/
def c1Enriched (tn E F : String) (m : Metric) : Metric :=
  (applyMetric (cache (c1State tn E F)) m).1

/-- The tag updates applyMetric performs for the C1 scenario cache entry. -/
def c1NewTags (tn E F : String) (tags : List (String × String)) :
    List (String × String) :=
  setA
    (if E != "" then
      setA (setA (setA tags "FOO" "bar") "service_name" F)
        "executor_name" E
     else setA (setA tags "FOO" "bar") "service_name" F)
    "task_name" tn

/-- C1 counterexample: the claim asserts enrichment adds the tag foo=bar for
task label DCOS_METRICS_FOO=bar, but the cache stores the label under the
prefix-stripped key FOO (case preserved), so no "foo" tag is added. -/
theorem c1_counterexample :
    lookupA (c1Enriched "mytask" "E" "F" c1Metric).tags "foo" = none ∧
    lookupA (c1Enriched "mytask" "E" "F" c1Metric).tags "FOO" = some "bar" := by
  decide

/-- C1 (amended): for any metric tagged container_id=abc123, enrichment
against the cache built from the C1 scenario state adds service_name=F,
executor_name=E exactly when E is non-empty, task_name=tn and FOO=bar
(the label key with the DCOS_METRICS_ prefix stripped, case preserved),
and removes no existing tag key. -/
theorem c1_apply_enriches (tn E F : String) (m : Metric)
    (hm : lookupA m.tags "container_id" = some "abc123") :
    lookupA (c1Enriched tn E F m).tags "service_name" = some F ∧
    (E ≠ "" → lookupA (c1Enriched tn E F m).tags "executor_name" = some E) ∧
    (E = "" → lookupA (c1Enriched tn E F m).tags "executor_name" =
      lookupA m.tags "executor_name") ∧
    lookupA (c1Enriched tn E F m).tags "task_name" = some tn ∧
    lookupA (c1Enriched tn E F m).tags "FOO" = some "bar" ∧
    (∀ k, (lookupA m.tags k).isSome →
      (lookupA (c1Enriched tn E F m).tags k).isSome) := by
  have hc : cache (c1State tn E F) =
      [("abc123",
        { containerID := "abc123", taskName := tn, executorName := E
          frameworkName := F, taskLabels := [("FOO", "bar")] })] := rfl
  have hm' : (applyMetric (cache (c1State tn E F)) m).1 =
      { m with tags := c1NewTags tn E F m.tags } := by
    rw [hc]
    unfold applyMetric
    rw [hm]
    rfl
  unfold c1Enriched
  rw [hm']
  unfold c1NewTags
  by_cases hE : (E != "") = true
  · have hEne : E ≠ "" := by simpa using hE
    simp only [hE, if_pos]
    refine ⟨?_, fun _ => ?_, fun hcon => absurd hcon hEne, ?_, ?_, ?_⟩
    · rw [lookupA_setA_ne _ _ _ _ (by decide),
        lookupA_setA_ne _ _ _ _ (by decide), lookupA_setA_self]
    · rw [lookupA_setA_ne _ _ _ _ (by decide), lookupA_setA_self]
    · rw [lookupA_setA_self]
    · rw [lookupA_setA_ne _ _ _ _ (by decide),
        lookupA_setA_ne _ _ _ _ (by decide),
        lookupA_setA_ne _ _ _ _ (by decide), lookupA_setA_self]
    · intro k hk
      exact lookupA_setA_isSome _ _ _ _ (lookupA_setA_isSome _ _ _ _
        (lookupA_setA_isSome _ _ _ _ (lookupA_setA_isSome _ _ _ _ hk)))
  · have hEeq : E = "" := by simpa using hE
    simp only [hE, if_neg, Bool.false_eq_true, not_false_eq_true]
    refine ⟨?_, fun hcon => absurd hEeq hcon, fun _ => ?_, ?_, ?_, ?_⟩
    · rw [lookupA_setA_ne _ _ _ _ (by decide), lookupA_setA_self]
    · rw [lookupA_setA_ne _ _ _ _ (by decide),
        lookupA_setA_ne _ _ _ _ (by decide),
        lookupA_setA_ne _ _ _ _ (by decide)]
    · rw [lookupA_setA_self]
    · rw [lookupA_setA_ne _ _ _ _ (by decide),
        lookupA_setA_ne _ _ _ _ (by decide), lookupA_setA_self]
    · intro k hk
      exact lookupA_setA_isSome _ _ _ _ (lookupA_setA_isSome _ _ _ _
        (lookupA_setA_isSome _ _ _ _ hk))

/-- C1 witness: the amended enrichment claim evaluated on a concrete
metric. -/
theorem c1_witness :
    lookupA (c1Enriched "mytask" "E" "F" c1Metric).tags "service_name" =
      some "F" ∧
    lookupA (c1Enriched "mytask" "E" "F" c1Metric).tags "executor_name" =
      some "E" ∧
    lookupA (c1Enriched "mytask" "E" "F" c1Metric).tags "task_name" =
      some "mytask" ∧
    lookupA (c1Enriched "mytask" "E" "F" c1Metric).tags "FOO" =
      some "bar" ∧
    (lookupA (c1Enriched "mytask" "E" "F" c1Metric).tags
      "container_id").isSome := by
  have h := c1_apply_enriches "mytask" "E" "F" c1Metric (by decide)
  exact ⟨h.1, h.2.1 (by decide), h.2.2.2.1, h.2.2.2.2.1,
    h.2.2.2.2.2 "container_id" (by decide)⟩

/-- C3: code-bug evidence. A task label whose key is exactly
DCOS_SERVICE_NAME (the sole whitelist entry) is dropped by mapTaskLabels,
because the whitelist comparison happens only inside the prefix branch and
against the prefix-stripped key; only DCOS_METRICS_-prefixed labels are
ever selected. -/
theorem c3_whitelist_dead :
    mapTaskLabels (some [{ key := "DCOS_SERVICE_NAME", value := "mysvc" }]) =
      [] ∧
    mapTaskLabels (some [{ key := "DCOS_METRICS_FOO", value := "bar" }]) =
      [("FOO", "bar")] ∧
    mapTaskLabels
      (some [⟨"DCOS_METRICS_DCOS_SERVICE_NAME", "mysvc"⟩]) =
      [("DCOS_SERVICE_NAME", "mysvc")] := by
  decide

/-! ### Claims C2 and C5 -/

/-- Spec-level reading for C2: the container id carried by the first status
that has a container status with a container id. -/
def firstContainerIDSpec (statuses : List TaskStatus) : Option ContainerID :=
  statuses.findSome? (fun s => s.containerStatus.bind (fun cs => cs.containerID))

theorem getContainerIDs_fst_eq (statuses : List TaskStatus) :
    (getContainerIDs statuses).1 =
      ((firstContainerIDSpec statuses).map ContainerID.value).getD "" := by
  induction statuses with
  | nil => rfl
  | cons s rest ih =>
    unfold getContainerIDs firstContainerIDSpec
    cases hcs : s.containerStatus with
    | none =>
      simp only [List.findSome?_cons, hcs, Option.none_bind]
      exact ih
    | some cs =>
      cases hcid : cs.containerID with
      | none =>
        simp only [List.findSome?_cons, hcs, Option.some_bind, hcid]
        exact ih
      | some cid =>
        simp only [List.findSome?_cons, hcs, Option.some_bind, hcid]
        rfl

/-- A task whose only status carries a container id with a parent. -/
def c2Task : Task :=
  { name := "t"
    taskID := "tid"
    frameworkID := "fid"
    executorID := none
    labels := none
    discovery := none
    resources := []
    statuses :=
      [{ containerStatus := some
          { containerID := some (.mk "child" (some (.mk "parent" none)))
            networkInfos := [] } }]
    container := none }

/-- C2 counterexample: the parent container id exists ("parent") yet the
resulting ScrapeTarget is tagged with the direct id "child". -/
theorem c2_counterexample :
    (getContainerIDs c2Task.statuses).2 = "parent" ∧
    lookupA (makeURLAndAddress c2Task "http://h:1/metrics").tags
      "container_id" = some "child" := by
  decide

/-- C2 (amended): the container_id tag on every scheduler-discovered target
equals the direct container id of the first status carrying a container
status with a container id; the parent id is computed but never used. -/
theorem c2_container_id_tag (t : Task) (endpoint : String) :
    lookupA (makeURLAndAddress t endpoint).tags "container_id" =
      some (((firstContainerIDSpec t.statuses).map ContainerID.value).getD "") := by
  have h : lookupA (makeURLAndAddress t endpoint).tags "container_id" =
      some (getContainerIDs t.statuses).1 := rfl
  rw [h, getContainerIDs_fst_eq]

/-- The C5 scenario port: number 9100, labelled prometheus format and host
network scope, no endpoint route label. -/
def c5Port : Port :=
  { number := 9100
    name := none
    labels := some
      [⟨"DCOS_METRICS_FORMAT", "prometheus"⟩, ⟨"network-scope", "host"⟩] }

/-- The C5 scenario task: a single declared port (c5Port) and a status
carrying container id abc123. -/
def c5Task : Task :=
  { name := "t"
    taskID := "tid"
    frameworkID := "fid"
    executorID := none
    labels := none
    discovery := some { ports := some [c5Port] }
    resources := []
    statuses :=
      [{ containerStatus := some
          { containerID := some (.mk "abc123" none), networkInfos := [] } }]
    container := none }

/-- C5: a task whose single declared port carries
DCOS_METRICS_FORMAT=prometheus and network-scope=host with no endpoint
route label is discovered exactly at http://<node-hostname>:<port>/metrics,
and the resulting target is tagged with the task's container id. -/
theorem c5_port_label_discovery (t : Task) (host : String) (p : Port)
    (hports : getPortsFromTask t = [p])
    (hfmt : getTag (simplifyLabels p.labels) "DCOS_METRICS_FORMAT" =
      "prometheus")
    (hscope : lookupA (simplifyLabels p.labels) "network-scope" =
      some "host")
    (hep : getTag (simplifyLabels p.labels) "DCOS_METRICS_ENDPOINT" = "") :
    getEndpointsFromTaskPorts t host =
      ["http://" ++ host ++ ":" ++ toString p.number ++ "/metrics"] ∧
    (makeURLAndAddress t
        ("http://" ++ host ++ ":" ++ toString p.number ++ "/metrics")).tags =
      [("container_id", (getContainerIDs t.statuses).1)] := by
  refine ⟨?_, rfl⟩
  have hhp : isHostPort p t = true := by
    unfold isHostPort
    simp only [hscope]
    rfl
  have hhost : getHostnameForPort p t host = Except.ok host := by
    unfold getHostnameForPort
    simp [hhp]
  have hroute : metricsRoute (simplifyLabels p.labels) = "/metrics" := by
    unfold metricsRoute
    simp [hep]
  unfold getEndpointsFromTaskPorts
  rw [hports]
  simp only [List.foldl_cons, List.foldl_nil, hfmt, hhost, hroute]
  simp

/-- C5 witness: the discovery claim evaluated on the concrete scenario. -/
theorem c5_witness :
    getEndpointsFromTaskPorts c5Task "node-1" =
      ["http://" ++ "node-1" ++ ":" ++ toString c5Port.number ++
        "/metrics"] ∧
    (makeURLAndAddress c5Task
        ("http://" ++ "node-1" ++ ":" ++ toString c5Port.number ++
          "/metrics")).tags =
      [("container_id", (getContainerIDs c5Task.statuses).1)] :=
  c5_port_label_discovery c5Task "node-1" c5Port (by decide) (by decide)
    (by decide) (by decide)

/-! ### Claim C4 -/

theorem atoi_ne_empty {s : String} {i : Int} (h : atoi s = some i) :
    s ≠ "" := by
  intro he
  subst he
  have hz : atoi "" = none := rfl
  rw [hz] at h
  cases h

/-- The C4 counterexample task: format label and a valid port index 0, but
the selected port is container-scoped and the task has no statuses, so no
task IP can be resolved. -/
def c4Task : Task :=
  { name := "t"
    taskID := "tid"
    frameworkID := "fid"
    executorID := none
    labels := some
      [⟨"DCOS_METRICS_FORMAT", "prometheus"⟩,
       ⟨"DCOS_METRICS_PORT_INDEX", "0"⟩]
    discovery := some
      { ports := some
          [{ number := 9090
             name := none
             labels := some [⟨"network-scope", "container"⟩] }] }
    resources := []
    statuses := []
    container := none }

/-- C4 counterexample: the port-index label parses to 0, which is within
range of the single declared port, yet discovery yields no endpoint because
the port is container-scoped and no task IP is available. -/
theorem c4_counterexample :
    atoi (getTag (simplifyLabels c4Task.labels) "DCOS_METRICS_PORT_INDEX") =
      some 0 ∧
    (getPortsFromTask c4Task).length = 1 ∧
    getEndpointFromTaskLabels c4Task "node" = none := by
  decide

/-- C4 (amended): under the task-level format label, a non-empty port-index
label that parses to an in-range index yields exactly the endpoint of that
port provided its hostname resolves; a non-empty index label that is
non-integer or out of range yields no endpoint, with no fallback to the
port-name label. -/
theorem c4_task_label_discovery (t : Task) (host : String)
    (hfmt : getTag (simplifyLabels t.labels) "DCOS_METRICS_FORMAT" =
      "prometheus") :
    (∀ (i : Int) (p : Port) (hn : String),
      atoi (getTag (simplifyLabels t.labels) "DCOS_METRICS_PORT_INDEX") =
        some i →
      ¬(i < 0 ∨ i ≥ ((getPortsFromTask t).length : Int)) →
      (getPortsFromTask t).get? i.toNat = some p →
      getHostnameForPort p t host = Except.ok hn →
      getEndpointFromTaskLabels t host =
        some ("http://" ++ hn ++ ":" ++ toString p.number ++
          metricsRoute (simplifyLabels t.labels))) ∧
    (getTag (simplifyLabels t.labels) "DCOS_METRICS_PORT_INDEX" ≠ "" →
     (∀ i : Int,
        atoi (getTag (simplifyLabels t.labels) "DCOS_METRICS_PORT_INDEX") =
          some i →
        i < 0 ∨ i ≥ ((getPortsFromTask t).length : Int)) →
     getEndpointFromTaskLabels t host = none) := by
  constructor
  · intro i p hn hidx hrange hget hhost
    have hne : getTag (simplifyLabels t.labels) "DCOS_METRICS_PORT_INDEX" ≠
        "" := atoi_ne_empty hidx
    have hneb : (getTag (simplifyLabels t.labels)
        "DCOS_METRICS_PORT_INDEX" == "") = false := by
      simpa using hne
    have hbne : (getTag (simplifyLabels t.labels)
        "DCOS_METRICS_PORT_INDEX" != "") = true := by
      simpa using hne
    unfold getEndpointFromTaskLabels
    simp only [hfmt, hneb, hidx, Bool.false_and, bne_self_eq_false,
      Bool.false_eq_true, if_false, Bool.not_false]
    rw [if_neg hrange, hget, if_pos hbne]
    simp only [hhost]
  · intro hs hbad
    have hneb : (getTag (simplifyLabels t.labels)
        "DCOS_METRICS_PORT_INDEX" == "") = false := by
      simpa using hs
    have hbne : (getTag (simplifyLabels t.labels)
        "DCOS_METRICS_PORT_INDEX" != "") = true := by
      simpa using hs
    unfold getEndpointFromTaskLabels
    simp only [hfmt, hneb, Bool.false_and, bne_self_eq_false,
      Bool.false_eq_true, if_false]
    rw [if_pos hbne]
    cases hatoi : atoi (getTag (simplifyLabels t.labels)
        "DCOS_METRICS_PORT_INDEX") with
    | none => simp only [hatoi]
    | some i =>
      have hout := hbad i hatoi
      simp only [hatoi]
      rw [if_pos hout]

/-- A host-scoped named port for the C4 witness. -/
def c4HostPort : Port :=
  { number := 8080
    name := some "metrics-port"
    labels := some [⟨"network-scope", "host"⟩] }

/-- The C4 witness task (valid index 0, plus a valid name label). -/
def c4GoodTask : Task :=
  { name := "t"
    taskID := "tid"
    frameworkID := "fid"
    executorID := none
    labels := some
      [⟨"DCOS_METRICS_FORMAT", "prometheus"⟩,
       ⟨"DCOS_METRICS_PORT_INDEX", "0"⟩,
       ⟨"DCOS_METRICS_PORT_NAME", "metrics-port"⟩]
    discovery := some { ports := some [c4HostPort] }
    resources := []
    statuses := []
    container := none }

/-- The C4 witness task with an out-of-range index and a valid name label. -/
def c4BadTask : Task :=
  { name := "t"
    taskID := "tid"
    frameworkID := "fid"
    executorID := none
    labels := some
      [⟨"DCOS_METRICS_FORMAT", "prometheus"⟩,
       ⟨"DCOS_METRICS_PORT_INDEX", "5"⟩,
       ⟨"DCOS_METRICS_PORT_NAME", "metrics-port"⟩]
    discovery := some { ports := some [c4HostPort] }
    resources := []
    statuses := []
    container := none }

/-- C4 witness: index 0 resolves to the single port's endpoint; index 5 is
out of range and yields none despite the matching name label. -/
theorem c4_witness :
    getEndpointFromTaskLabels c4GoodTask "node" =
      some ("http://" ++ "node" ++ ":" ++ toString c4HostPort.number ++
        metricsRoute (simplifyLabels c4GoodTask.labels)) ∧
    getEndpointFromTaskLabels c4BadTask "node" = none := by
  constructor
  · exact (c4_task_label_discovery c4GoodTask "node" (by decide)).1 0
      c4HostPort "node" (by decide) (by decide) (by decide) rfl
  · refine (c4_task_label_discovery c4BadTask "node" (by decide)).2
      (by decide) ?_
    intro i hi
    have h5 : atoi (getTag (simplifyLabels c4BadTask.labels)
        "DCOS_METRICS_PORT_INDEX") = some 5 := by decide
    rw [h5] at hi
    have h5i : i = 5 := by
      injection hi with hh
      exact hh.symm
    subst h5i
    right
    decide

/-! ### Claim C6: rate-limited refresh (dcos_metadata refresh) -/

structure OnceState where
  done : Bool
  resetAt : Option Nat
  queries : Nat
  deriving DecidableEq

/-- Modelled from the spec: the resettable Once guarding the refresh of
DCOSMetadata (the Once type with Do and Reset is not under src/; the spec
describes it as a single-flight guard with a cooldown timer). A trigger at
time t first lets a due Reset re-arm the guard, then either runs the
refresh body - one scheduler state query, scheduling the next Reset at
t + rateLimit - or is absorbed. -/
def trigger (rateLimit : Nat) (st : OnceState) (t : Nat) : OnceState :=
  let st2 :=
    match st.resetAt with
    | some tr =>
      if tr ≤ t then { st with done := false, resetAt := none } else st
    | none => st
  if st2.done then st2
  else
    { done := true, resetAt := some (t + rateLimit)
      queries := st2.queries + 1 }

/-- A chronological sequence of refresh triggers from the initial state. -/
def runTriggers (rateLimit : Nat) (ts : List Nat) : OnceState :=
  ts.foldl (trigger rateLimit) { done := false, resetAt := none, queries := 0 }

theorem trigger_absorbed (r t1 q : Nat) :
    ∀ ts : List Nat, (∀ t ∈ ts, t < t1 + r) →
      ts.foldl (trigger r)
        { done := true, resetAt := some (t1 + r), queries := q } =
      { done := true, resetAt := some (t1 + r), queries := q }
  | [], _ => rfl
  | t :: rest, h => by
    have ht : t < t1 + r := h t (List.mem_cons_self t rest)
    have hstep : trigger r
        { done := true, resetAt := some (t1 + r), queries := q } t =
        { done := true, resetAt := some (t1 + r), queries := q } := by
      simp [trigger, Nat.not_le_of_lt ht]
    rw [List.foldl_cons, hstep]
    exact trigger_absorbed r t1 q rest fun u hu => h u (List.mem_cons_of_mem t hu)

/-- C6: after a first trigger, every further trigger within the rate-limit
window is absorbed (exactly one scheduler query in total), and a trigger at
or after the window's end re-arms the guard and queries again. -/
theorem c6_rate_limit (r t1 : Nat) (ts : List Nat)
    (h : ∀ t ∈ ts, t < t1 + r) :
    (runTriggers r (t1 :: ts)).queries = 1 ∧
    (∀ t2, t1 + r ≤ t2 → (runTriggers r [t1, t2]).queries = 2) := by
  have hfirst : trigger r { done := false, resetAt := none, queries := 0 } t1 =
      { done := true, resetAt := some (t1 + r), queries := 1 } := rfl
  constructor
  · unfold runTriggers
    rw [List.foldl_cons, hfirst, trigger_absorbed r t1 1 ts h]
  · intro t2 h2
    unfold runTriggers
    rw [List.foldl_cons, hfirst, List.foldl_cons]
    have hstep : trigger r
        { done := true, resetAt := some (t1 + r), queries := 1 } t2 =
        { done := true, resetAt := some (t2 + r), queries := 2 } := by
      simp [trigger, h2]
    rw [hstep]
    rfl

/-- C6 witness: with a 5-tick rate limit, triggers at 0, 1 and 4 make one
query; a trigger at 5 makes a second. -/
theorem c6_witness :
    (runTriggers 5 [0, 1, 4]).queries = 1 ∧
    (runTriggers 5 [0, 5]).queries = 2 := by
  have h := c6_rate_limit 5 0 [1, 4] (by decide)
  exact ⟨h.1, h.2 5 (by decide)⟩

/-! ### Claim C9: the dcos_statsd container registry -/

structure Container where
  id : String
  statsdHost : String
  statsdPort : Nat
  deriving DecidableEq

/-- Modelled from the spec: AddContainer of the dcos_statsd registry (the
DCOSStatsd implementation is not under src/, only its Controller interface
and tests). An already-registered id returns the existing entry unchanged;
a port held by a different container is a conflict; otherwise the container
is stored. Ephemeral host/port auto-assignment happens before this point,
so the argument arrives fully specified. -/
def AddContainer (reg : List (String × Container)) (c : Container) :
    List (String × Container) × Except String Container :=
  match lookupA reg c.id with
  | some existing => (reg, .ok existing)
  | none =>
    if reg.any (fun p => p.2.statsdPort == c.statsdPort) then
      (reg, .error "port is in use by another container")
    else (setA reg c.id c, .ok c)

/-- C9: a second AddContainer with the same id (any host/port) returns the
registration stored by the first call and leaves the registry size
unchanged. -/
theorem c9_add_container_idempotent (reg : List (String × Container))
    (i h1 h2 : String) (p1 p2 : Nat) (c1 : Container)
    (hfirst : (AddContainer reg
      { id := i, statsdHost := h1, statsdPort := p1 }).2 = .ok c1) :
    (AddContainer
        (AddContainer reg { id := i, statsdHost := h1, statsdPort := p1 }).1
        { id := i, statsdHost := h2, statsdPort := p2 }).2 = .ok c1 ∧
    (AddContainer
        (AddContainer reg { id := i, statsdHost := h1, statsdPort := p1 }).1
        { id := i, statsdHost := h2, statsdPort := p2 }).1.length =
      (AddContainer reg
        { id := i, statsdHost := h1, statsdPort := p1 }).1.length := by
  unfold AddContainer at hfirst ⊢
  cases hl : lookupA reg i with
  | some ex =>
    simp only [hl] at hfirst ⊢
    have hex : ex = c1 := by
      injection hfirst
    subst hex
    exact ⟨rfl, trivial⟩
  | none =>
    simp only [hl] at hfirst ⊢
    by_cases hp : (reg.any (fun p => p.2.statsdPort == p1)) = true
    · rw [if_pos hp] at hfirst
      cases hfirst
    · rw [if_neg hp] at hfirst ⊢
      have hc1 : ({ id := i, statsdHost := h1, statsdPort := p1 } :
          Container) = c1 := by
        injection hfirst
      rw [hc1]
      have hself := lookupA_setA_self reg i c1
      simp [hself]

/-- C9 witness: registering abc123 twice with different host/port returns
the first registration and does not grow the registry. -/
theorem c9_witness :
    (AddContainer
        (AddContainer []
          { id := "abc123", statsdHost := "127.0.0.1", statsdPort := 8125 }).1
        { id := "abc123", statsdHost := "10.0.0.1", statsdPort := 9999 }).2 =
      .ok { id := "abc123", statsdHost := "127.0.0.1", statsdPort := 8125 } ∧
    (AddContainer
        (AddContainer []
          { id := "abc123", statsdHost := "127.0.0.1", statsdPort := 8125 }).1
        { id := "abc123", statsdHost := "10.0.0.1", statsdPort := 9999 }).1.length =
      (AddContainer []
        { id := "abc123", statsdHost := "127.0.0.1", statsdPort := 8125 }).1.length :=
  c9_add_container_idempotent [] "abc123" "127.0.0.1" "10.0.0.1" 8125 9999
    { id := "abc123", statsdHost := "127.0.0.1", statsdPort := 8125 } rfl

/-! ### Claim C8: the scheduler query client (getTasks and getState) -/

/-- agent.Response_Type (the constructors these plugins inspect; UNKNOWN is
the zero value of the decoded response). -/
inductive ResponseType where
  | unknown
  | getState
  | getTasks
  deriving DecidableEq

/-- agent.Response restricted to the payloads these plugins read. -/
structure AgentResponse where
  rtype : ResponseType
  getStatePayload : Option Response_GetState
  getTasksPayload : Option Response_GetTasks

/-- The zero value `var r agent.Response` decoding starts from. -/
def AgentResponse.zero : AgentResponse :=
  { rtype := .unknown, getStatePayload := none, getTasksPayload := none }

/-- Go error values returned by the client, as an inductive carrying the
message-relevant data. -/
inductive ClientError where
  | sendError (msg : String)
  | decodeError (msg : String)
  | typeMismatch (expected actual : ResponseType)
  | emptyResponse (msg : String)
  deriving DecidableEq

/-- The decode loop of processResponse: `resp.Decode(&r)` until EOF (the end
of the record list), each successful decode replacing r. -/
def decodeAll (r : AgentResponse) :
    List (Except String AgentResponse) → Except String AgentResponse
  | [] => .ok r
  | .error e :: _ => .error e
  | .ok r2 :: rest => decodeAll r2 rest

/-- processResponse: decode until EOF, then check the declared type. -/
def processResponse (records : List (Except String AgentResponse))
    (t : ResponseType) : Except ClientError AgentResponse :=
  match decodeAll AgentResponse.zero records with
  | .error e => .error (.decodeError e)
  | .ok r =>
    if r.rtype == t then .ok r else .error (.typeMismatch t r.rtype)

/-- getTasks: send, process the response, and reject a nil payload. The
send result stands for the NonStreaming GetTasks call. -/
def getTasks
    (sendResult : Except String (List (Except String AgentResponse))) :
    Except ClientError Response_GetTasks :=
  match sendResult with
  | .error e => .error (.sendError e)
  | .ok resp =>
    match processResponse resp .getTasks with
    | .error e => .error e
    | .ok r =>
      match r.getTasksPayload with
      | none =>
        .error (.emptyResponse
          "the getTasks response from the mesos agent was empty")
      | some gs => .ok gs

/-- getState (dcos_metadata): same shape as getTasks with the GetState
expected type and payload. -/
def getState
    (sendResult : Except String (List (Except String AgentResponse))) :
    Except ClientError Response_GetState :=
  match sendResult with
  | .error e => .error (.sendError e)
  | .ok resp =>
    match processResponse resp .getState with
    | .error e => .error e
    | .ok r =>
      match r.getStatePayload with
      | none =>
        .error (.emptyResponse
          "the getState response from the mesos agent was empty")
      | some gs => .ok gs

/-- C8: getTasks and getState error on a declared-type mismatch, return the
distinct empty-response error on a nil payload of a correctly-typed
response, and return ok exactly when decoding succeeds, the type matches
and the payload is present. -/
theorem c8_protocol_errors :
    (∀ (resp : List (Except String AgentResponse)) (r : AgentResponse),
      decodeAll AgentResponse.zero resp = .ok r →
      r.rtype ≠ .getTasks →
      getTasks (.ok resp) = .error (.typeMismatch .getTasks r.rtype)) ∧
    (∀ (resp : List (Except String AgentResponse)) (r : AgentResponse),
      decodeAll AgentResponse.zero resp = .ok r →
      r.rtype = .getTasks → r.getTasksPayload = none →
      getTasks (.ok resp) = .error (.emptyResponse
        "the getTasks response from the mesos agent was empty")) ∧
    (∀ (resp : List (Except String AgentResponse))
      (gs : Response_GetTasks),
      getTasks (.ok resp) = .ok gs →
      ∃ r, decodeAll AgentResponse.zero resp = .ok r ∧
        r.rtype = .getTasks ∧ r.getTasksPayload = some gs) ∧
    (∀ (resp : List (Except String AgentResponse)) (r : AgentResponse),
      decodeAll AgentResponse.zero resp = .ok r →
      r.rtype ≠ .getState →
      getState (.ok resp) = .error (.typeMismatch .getState r.rtype)) ∧
    (∀ (resp : List (Except String AgentResponse)) (r : AgentResponse),
      decodeAll AgentResponse.zero resp = .ok r →
      r.rtype = .getState → r.getStatePayload = none →
      getState (.ok resp) = .error (.emptyResponse
        "the getState response from the mesos agent was empty")) ∧
    (∀ (resp : List (Except String AgentResponse))
      (gs : Response_GetState),
      getState (.ok resp) = .ok gs →
      ∃ r, decodeAll AgentResponse.zero resp = .ok r ∧
        r.rtype = .getState ∧ r.getStatePayload = some gs) := by
  refine ⟨?_, ?_, ?_, ?_, ?_, ?_⟩
  · intro resp r hdec hne
    have hb : (r.rtype == ResponseType.getTasks) = false := by
      simpa using hne
    simp only [getTasks, processResponse]
    rw [hdec]
    simp [hb]
  · intro resp r hdec ht hp
    have hb : (r.rtype == ResponseType.getTasks) = true := by
      simpa using ht
    simp only [getTasks, processResponse]
    rw [hdec]
    simp [hb, hp]
  · intro resp gs h
    simp only [getTasks, processResponse] at h
    cases hdec : decodeAll AgentResponse.zero resp with
    | error e => rw [hdec] at h; simp at h
    | ok r =>
      rw [hdec] at h
      by_cases hb : (r.rtype == ResponseType.getTasks) = true
      · simp only [hb, if_true] at h
        cases hp : r.getTasksPayload with
        | none => simp [hp] at h
        | some gs2 =>
          simp only [hp] at h
          have hgs : gs2 = gs := by injection h
          subst hgs
          exact ⟨r, rfl, by simpa using hb, hp⟩
      · rw [Bool.not_eq_true] at hb
        simp [hb] at h
  · intro resp r hdec hne
    have hb : (r.rtype == ResponseType.getState) = false := by
      simpa using hne
    simp only [getState, processResponse]
    rw [hdec]
    simp [hb]
  · intro resp r hdec ht hp
    have hb : (r.rtype == ResponseType.getState) = true := by
      simpa using ht
    simp only [getState, processResponse]
    rw [hdec]
    simp [hb, hp]
  · intro resp gs h
    simp only [getState, processResponse] at h
    cases hdec : decodeAll AgentResponse.zero resp with
    | error e => rw [hdec] at h; simp at h
    | ok r =>
      rw [hdec] at h
      by_cases hb : (r.rtype == ResponseType.getState) = true
      · simp only [hb, if_true] at h
        cases hp : r.getStatePayload with
        | none => simp [hp] at h
        | some gs2 =>
          simp only [hp] at h
          have hgs : gs2 = gs := by injection h
          subst hgs
          exact ⟨r, rfl, by simpa using hb, hp⟩
      · rw [Bool.not_eq_true] at hb
        simp [hb] at h

/-- A decoded GET_STATE response with an empty (but present) state payload. -/
def c8StateResp : AgentResponse :=
  { rtype := .getState
    getStatePayload :=
      some { getTasks := none, getFrameworks := none, getExecutors := none }
    getTasksPayload := none }

/-- A decoded GET_TASKS response whose payload is nil. -/
def c8EmptyTasksResp : AgentResponse :=
  { rtype := .getTasks, getStatePayload := none, getTasksPayload := none }

/-- A decoded GET_TASKS response with an empty task list payload. -/
def c8GoodTasksResp : AgentResponse :=
  { rtype := .getTasks, getStatePayload := none
    getTasksPayload := some { launchedTasks := [] } }

/-- C8 witness: a GET_STATE reply to a getTasks request is a type-mismatch
error; a nil GET_TASKS payload is the distinct empty error; a well-typed
reply with payload decodes to a response of the expected type and payload. -/
theorem c8_witness :
    getTasks (.ok [.ok c8StateResp]) =
      .error (.typeMismatch .getTasks .getState) ∧
    getTasks (.ok [.ok c8EmptyTasksResp]) =
      .error (.emptyResponse
        "the getTasks response from the mesos agent was empty") ∧
    (∃ r, decodeAll AgentResponse.zero [.ok c8GoodTasksResp] = .ok r ∧
      r.rtype = .getTasks ∧
      r.getTasksPayload = some { launchedTasks := [] }) := by
  have h := c8_protocol_errors
  refine ⟨h.1 [.ok c8StateResp] c8StateResp rfl (by decide), ?_, ?_⟩
  · exact h.2.1 [.ok c8EmptyTasksResp] c8EmptyTasksResp rfl rfl rfl
  · exact h.2.2.1 [.ok c8GoodTasksResp] { launchedTasks := [] } rfl

/-! ### Claim C7: Gather and gatherURL -/

/-- The outcome of one HTTP (or unix-socket) exchange: a transport error,
or a status code with the body-read result. -/
inductive FetchOutcome where
  | transportError (msg : String)
  | response (status : Nat) (body : Except String String)

/-- The scrape I/O environment: request construction and both the HTTP and
unix-socket transports are folded into fetch (their error handling in the
source is identical); parse is the exposition parser (out-of-scope
collaborator); readFile reads the bearer-token file. -/
structure ScrapeEnv where
  fetch : String → FetchOutcome
  parse : String → Except String (List Metric)
  readFile : String → Except String String

/-- telegraf.Accumulator restricted to what Gather touches: AddError
appends errors (nil errors are dropped), and the typed AddCounter family
all append the metric. -/
structure Accumulator where
  errors : List String
  metrics : List Metric
  deriving DecidableEq

/-- The bearer-token step of gatherURL: a configured token file that fails
to read aborts the target with that error. -/
def bearerTokenErr (env : ScrapeEnv) (bearerToken : String) :
    Option String :=
  if bearerToken != "" then
    match env.readFile bearerToken with
    | .error e => some e
    | .ok _ => none
  else none

/-- The provenance tags gatherURL attaches to each emitted metric: the
(user-stripped) original URL, the resolved address when present, and the
target's extra tags. -/
def provTags (u : URLAndAddress) (tags : List (String × String)) :
    List (String × String) :=
  u.tags.foldl (fun ts kv => setA ts kv.1 kv.2)
    (if u.address != "" then
      setA (setA tags "url" u.originalURL) "address" u.address
     else setA tags "url" u.originalURL)

/-- gatherURL: fetch one target, check the status, read and parse the body,
and emit each metric with the url, address and extra tags. Returns the
emitted metrics and the per-target error. -/
def gatherURL (env : ScrapeEnv) (bearerToken : String) (u : URLAndAddress) :
    List Metric × Option String :=
  match bearerTokenErr env bearerToken with
  | some e => ([], some e)
  | none =>
    match env.fetch u.url with
    | .transportError e =>
      ([], some ("error making HTTP request to " ++ u.url ++ ": " ++ e))
    | .response status body =>
      if status != 200 then
        ([], some (u.url ++ " returned HTTP status " ++ toString status))
      else
        match body with
        | .error e => ([], some ("error reading body: " ++ e))
        | .ok b =>
          match env.parse b with
          | .error e =>
            ([], some ("error reading metrics for " ++ u.url ++ ": " ++ e))
          | .ok metrics =>
            (metrics.map (fun m => { m with tags := provTags u m.tags }),
              none)

/-- One step of Gather's fan-out: run gatherURL and accumulate. -/
def addGathered (env : ScrapeEnv) (bearerToken : String)
    (acc : Accumulator) (u : URLAndAddress) : Accumulator :=
  { errors := acc.errors ++ ((gatherURL env bearerToken u).2).toList
    metrics := acc.metrics ++ (gatherURL env bearerToken u).1 }

/-- Gather: abort with the resolution error if URL resolution failed;
otherwise fetch every target (the concurrent fan-out joined by wg.Wait is
an unordered fold) and return nil. -/
def Gather (env : ScrapeEnv) (bearerToken : String)
    (resolved : Option (List URLAndAddress) × Option String) :
    Accumulator × Option String :=
  match resolved.2 with
  | some e => ({ errors := [], metrics := [] }, some e)
  | none =>
    ((resolved.1.getD []).foldl (addGathered env bearerToken)
      { errors := [], metrics := [] }, none)

theorem gather_fold_spec (env : ScrapeEnv) (bearerToken : String) :
    ∀ (targets : List URLAndAddress) (acc : Accumulator),
      targets.foldl (addGathered env bearerToken) acc =
        { errors := acc.errors ++
            targets.flatMap
              (fun u => ((gatherURL env bearerToken u).2).toList)
          metrics := acc.metrics ++
            targets.flatMap (fun u => (gatherURL env bearerToken u).1) }
  | [], acc => by simp
  | u :: rest, acc => by
    rw [List.foldl_cons, gather_fold_spec env bearerToken rest]
    simp [addGathered, List.append_assoc]

theorem gatherURL_transport_isSome (env : ScrapeEnv) (bearerToken : String)
    (u : URLAndAddress) (e : String)
    (hf : env.fetch u.url = .transportError e) :
    ((gatherURL env bearerToken u).2).isSome = true := by
  unfold gatherURL
  cases htok : bearerTokenErr env bearerToken with
  | some e2 => rfl
  | none => simp [hf]

theorem gatherURL_status_isSome (env : ScrapeEnv) (bearerToken : String)
    (u : URLAndAddress) (st : Nat) (body : Except String String)
    (hf : env.fetch u.url = .response st body) (hst : st ≠ 200) :
    ((gatherURL env bearerToken u).2).isSome = true := by
  unfold gatherURL
  cases htok : bearerTokenErr env bearerToken with
  | some e2 => rfl
  | none =>
    have hb : (st != 200) = true := by simpa using hst
    simp [hf, hb]

theorem gatherURL_parse_isSome (env : ScrapeEnv) (bearerToken : String)
    (u : URLAndAddress) (b e2 : String)
    (hf : env.fetch u.url = .response 200 (.ok b))
    (hp : env.parse b = .error e2) :
    ((gatherURL env bearerToken u).2).isSome = true := by
  unfold gatherURL
  cases htok : bearerTokenErr env bearerToken with
  | some e3 => rfl
  | none => simp [hf, hp]

/-- C7: with URL resolution succeeded, Gather returns nil; every target's
per-target error lands on the accumulator and every successful target's
metrics are all emitted (a failing target does not block others); transport
errors, non-2xx statuses and body-parse failures each produce a per-target
error. -/
theorem c7_gather_aggregates (env : ScrapeEnv) (bearerToken : String)
    (targets : List URLAndAddress) :
    (Gather env bearerToken (some targets, none)).2 = none ∧
    (∀ u ∈ targets, ∀ e, (gatherURL env bearerToken u).2 = some e →
      e ∈ (Gather env bearerToken (some targets, none)).1.errors) ∧
    (∀ u ∈ targets, ∀ m, m ∈ (gatherURL env bearerToken u).1 →
      m ∈ (Gather env bearerToken (some targets, none)).1.metrics) ∧
    (∀ u ∈ targets,
      (∀ e, env.fetch u.url = .transportError e →
        ((gatherURL env bearerToken u).2).isSome = true) ∧
      (∀ (st : Nat) (body : Except String String),
        env.fetch u.url = .response st body → st < 200 ∨ 300 ≤ st →
        ((gatherURL env bearerToken u).2).isSome = true) ∧
      (∀ b e2, env.fetch u.url = .response 200 (.ok b) →
        env.parse b = .error e2 →
        ((gatherURL env bearerToken u).2).isSome = true)) := by
  have hg : (Gather env bearerToken (some targets, none)).1 =
      { errors :=
          targets.flatMap
            (fun u => ((gatherURL env bearerToken u).2).toList)
        metrics :=
          targets.flatMap (fun u => (gatherURL env bearerToken u).1) } := by
    unfold Gather
    simp only [Option.getD_some]
    rw [gather_fold_spec env bearerToken targets]
    simp
  refine ⟨rfl, ?_, ?_, ?_⟩
  · intro u hu e he
    rw [hg]
    simp only [List.mem_flatMap]
    exact ⟨u, hu, by simp [he]⟩
  · intro u hu m hm
    rw [hg]
    simp only [List.mem_flatMap]
    exact ⟨u, hu, hm⟩
  · intro u _
    refine ⟨fun e hf => gatherURL_transport_isSome env bearerToken u e hf,
      fun st body hf hst => ?_,
      fun b e2 hf hp => gatherURL_parse_isSome env bearerToken u b e2 hf hp⟩
    have hne : st ≠ 200 := by
      rcases hst with h1 | h1
      · omega
      · omega
    exact gatherURL_status_isSome env bearerToken u st body hf hne

/-- The C7 witness environment: one target fails at transport, the other
succeeds with one gauge metric. -/
def c7Env : ScrapeEnv :=
  { fetch := fun u =>
      if u == "http://bad:1/metrics" then .transportError "boom"
      else .response 200 (.ok "body")
    parse := fun _ => .ok [{ name := "m1", mtype := .gauge, tags := [] }]
    readFile := fun _ => .error "unused" }

def c7Bad : URLAndAddress :=
  { url := "http://bad:1/metrics", originalURL := "http://bad:1/metrics"
    address := "", tags := [] }

def c7Good : URLAndAddress :=
  { url := "http://good:1/metrics", originalURL := "http://good:1/metrics"
    address := "", tags := [] }

/-- C7 witness: with one failing and one succeeding target, Gather returns
nil, records the failing target's error, and still emits the succeeding
target's metric. -/
theorem c7_witness :
    (Gather c7Env "" (some [c7Bad, c7Good], none)).2 = none ∧
    "error making HTTP request to http://bad:1/metrics: boom" ∈
      (Gather c7Env "" (some [c7Bad, c7Good], none)).1.errors ∧
    ({ name := "m1", mtype := .gauge
       tags := [("url", "http://good:1/metrics")] } : Metric) ∈
      (Gather c7Env "" (some [c7Bad, c7Good], none)).1.metrics ∧
    ((gatherURL c7Env "" c7Bad).2).isSome = true := by
  have h := c7_gather_aggregates c7Env "" [c7Bad, c7Good]
  refine ⟨h.1, ?_, ?_, ?_⟩
  · exact h.2.1 c7Bad (by decide) _ (by decide)
  · exact h.2.2.1 c7Good (by decide) _ (by decide)
  · exact (h.2.2.2 c7Bad (by decide)).1 "boom" rfl

/-! ### Claim C10: GetAllURLs -/

/-- The resolver I/O environment: net/url parsing (URLs are represented by
their canonical string), URL.Hostname, net.LookupHost, and AddressToURL
(host substitution preserving scheme, path and query). -/
structure ResolverEnv where
  parseURL : String → Except String String
  hostnameOf : String → String
  lookupHost : String → Except String (List String)
  addressToURL : String → String → String

/-- The static-URL loop of GetAllURLs: malformed entries are logged and
skipped. -/
def resolveStatic (env : ResolverEnv) (urls : List String) :
    List (String × URLAndAddress) :=
  urls.foldl
    (fun m u =>
      match env.parseURL u with
      | .error _ => m
      | .ok pu =>
        setA m pu { url := pu, originalURL := pu, address := "", tags := [] })
    []

/-- The Kubernetes-service loop of GetAllURLs: a parse failure aborts the
whole call; a DNS-resolution failure is logged and the entry skipped. -/
def resolveServices (env : ResolverEnv) :
    List (String × URLAndAddress) → List String →
      Except String (List (String × URLAndAddress))
  | m, [] => .ok m
  | m, svc :: rest =>
    match env.parseURL svc with
    | .error e => .error e
    | .ok u =>
      match env.lookupHost (env.hostnameOf u) with
      | .error _ => resolveServices env m rest
      | .ok addrs =>
        resolveServices env
          (addrs.foldl
            (fun m2 a =>
              setA m2 (env.addressToURL u a)
                { url := env.addressToURL u a, originalURL := u
                  address := a, tags := [] })
            m)
          rest

/-- GetAllURLs: static URLs, then kubernetesPods, then service discovery
(fatal on a malformed service URL: returns the nil map with the error),
then Mesos discovery (non-fatal: returns the map built so far with the
error). mesos is none when no agent URL is configured. -/
def GetAllURLs (env : ResolverEnv) (urls : List String)
    (kubernetesPods : List (String × URLAndAddress))
    (kubernetesServices : List String)
    (mesos : Option (Except String (List URLAndAddress))) :
    Option (List (String × URLAndAddress)) × Option String :=
  match
    resolveServices env
      (kubernetesPods.foldl (fun m kv => setA m kv.1 kv.2)
        (resolveStatic env urls))
      kubernetesServices
  with
  | .error e => (none, some e)
  | .ok m2 =>
    match mesos with
    | none => (some m2, none)
    | some (.error e) => (some m2, some e)
    | some (.ok taskURLs) =>
      (some (taskURLs.foldl (fun m u => setA m u.url u) m2), none)

theorem resolveServices_error_of_bad (env : ResolverEnv) :
    ∀ (services : List String) (m : List (String × URLAndAddress)),
      (∃ s ∈ services, ∃ e, env.parseURL s = .error e) →
      ∃ e2, resolveServices env m services = .error e2
  | [], _, h => by
    rcases h with ⟨s, hs, _⟩
    cases hs
  | svc :: rest, m, h => by
    unfold resolveServices
    cases hp : env.parseURL svc with
    | error e => exact ⟨e, rfl⟩
    | ok u =>
      dsimp only
      have hrest : ∃ s ∈ rest, ∃ e, env.parseURL s = .error e := by
        rcases h with ⟨s, hs, e, he⟩
        rcases List.mem_cons.mp hs with heq | hmem
        · subst heq
          rw [hp] at he
          cases he
        · exact ⟨s, hmem, e, he⟩
      cases hl : env.lookupHost (env.hostnameOf u) with
      | error e => exact resolveServices_error_of_bad env rest m hrest
      | ok addrs => exact resolveServices_error_of_bad env rest _ hrest

theorem resolveServices_skip_unresolvable (env : ResolverEnv)
    (s pu : String) (post : List String)
    (hp : env.parseURL s = .ok pu)
    (hl : ∃ e, env.lookupHost (env.hostnameOf pu) = .error e) :
    ∀ (pre : List String) (m : List (String × URLAndAddress)),
      resolveServices env m (pre ++ s :: post) =
        resolveServices env m (pre ++ post)
  | [], m => by
    rcases hl with ⟨e, he⟩
    simp only [List.nil_append]
    conv_lhs => unfold resolveServices
    rw [hp]
    dsimp only
    rw [he]
  | svc :: pre, m => by
    simp only [List.cons_append]
    unfold resolveServices
    cases hq : env.parseURL svc with
    | error e => rfl
    | ok u =>
      dsimp only
      cases hql : env.lookupHost (env.hostnameOf u) with
      | error e =>
        exact resolveServices_skip_unresolvable env s pu post hp hl pre m
      | ok addrs =>
        exact resolveServices_skip_unresolvable env s pu post hp hl pre _

/-- C10: a malformed service URL makes GetAllURLs return the nil map with
an error (discarding the static targets already resolved); a malformed
static URL and an unresolvable service are skipped per-entry without
affecting the result. -/
theorem c10_get_all_urls (env : ResolverEnv) (urls : List String)
    (kubernetesPods : List (String × URLAndAddress))
    (kubernetesServices : List String)
    (mesos : Option (Except String (List URLAndAddress))) :
    ((∃ s ∈ kubernetesServices, ∃ e, env.parseURL s = .error e) →
      (GetAllURLs env urls kubernetesPods kubernetesServices mesos).1 =
        none ∧
      ((GetAllURLs env urls kubernetesPods kubernetesServices
        mesos).2).isSome = true) ∧
    (∀ (pre post : List String) (u : String),
      (∃ e, env.parseURL u = .error e) →
      GetAllURLs env (pre ++ u :: post) kubernetesPods kubernetesServices
        mesos =
      GetAllURLs env (pre ++ post) kubernetesPods kubernetesServices
        mesos) ∧
    (∀ (pre post : List String) (s pu : String),
      env.parseURL s = .ok pu →
      (∃ e, env.lookupHost (env.hostnameOf pu) = .error e) →
      GetAllURLs env urls kubernetesPods (pre ++ s :: post) mesos =
      GetAllURLs env urls kubernetesPods (pre ++ post) mesos) := by
  refine ⟨?_, ?_, ?_⟩
  · intro hbad
    obtain ⟨e2, he2⟩ := resolveServices_error_of_bad env kubernetesServices
      (kubernetesPods.foldl (fun m kv => setA m kv.1 kv.2)
        (resolveStatic env urls)) hbad
    unfold GetAllURLs
    rw [he2]
    exact ⟨rfl, rfl⟩
  · intro pre post u hu
    rcases hu with ⟨e, he⟩
    have hstatic : resolveStatic env (pre ++ u :: post) =
        resolveStatic env (pre ++ post) := by
      unfold resolveStatic
      rw [List.foldl_append, List.foldl_append, List.foldl_cons, he]
    unfold GetAllURLs
    rw [hstatic]
  · intro pre post s pu hp hl
    unfold GetAllURLs
    rw [resolveServices_skip_unresolvable env s pu post hp hl pre]

/-- The C10 witness environment: the string ::bad:: fails URL parsing,
the string unresolvable fails DNS lookup, everything else succeeds. -/
def c10Env : ResolverEnv :=
  { parseURL := fun s =>
      if s == "::bad::" then .error "parse error" else .ok s
    hostnameOf := fun u => u
    lookupHost := fun h =>
      if h == "unresolvable" then .error "no such host" else .ok [h]
    addressToURL := fun u a => u ++ "#" ++ a }

/-- C10 witness: a malformed service wipes the already-resolved static
target; malformed statics and unresolvable services are per-entry skips. -/
theorem c10_witness :
    (GetAllURLs c10Env ["http://a"] [] ["::bad::"] none).1 = none ∧
    ((GetAllURLs c10Env ["http://a"] [] ["::bad::"] none).2).isSome =
      true ∧
    GetAllURLs c10Env (["http://a"] ++ "::bad::" :: ["http://b"]) []
      ["::bad::"] none =
      GetAllURLs c10Env (["http://a"] ++ ["http://b"]) [] ["::bad::"]
        none ∧
    GetAllURLs c10Env ["http://a"] []
      (["http://s1"] ++ "unresolvable" :: []) none =
      GetAllURLs c10Env ["http://a"] [] (["http://s1"] ++ []) none := by
  have h := c10_get_all_urls c10Env ["http://a"] [] ["::bad::"] none
  have h2 := c10_get_all_urls c10Env ["http://a"] []
    (["http://s1"] ++ "unresolvable" :: []) none
  have ha := h.1 ⟨"::bad::", by decide, "parse error", rfl⟩
  refine ⟨ha.1, ha.2, ?_, ?_⟩
  · exact h.2.1 ["http://a"] ["http://b"] "::bad::" ⟨"parse error", rfl⟩
  · exact h2.2.2 ["http://s1"] [] "unresolvable" "unresolvable" rfl
      ⟨"no such host", rfl⟩

end DcosTelegraf
